import Mathlib

/-!
Shallow embedding of the `execute` method of `GoogleChat.node.ts`
(n8n-nodes-google-chat). The node iterates the input items, dispatches on
the run-level `(resource, operation)` pair, builds one HTTP request per
item (or a fetch-all pagination call), and aggregates the responses into
one flat output list, catching per-item failures when continue-on-fail is
enabled.

JavaScript values are modelled as `JValue`; query-string entries as `QVal`
(a JS object property may hold `undefined`); the shared mutable `qs`
object as an association list updated in place; the transport collaborators
(`googleApiRequest`, `googleApiRequestAllItems`) and the JSON validator
(`validateJSON`, from `GenericFunctions.ts`, which is not part of the
sources here) as an environment of oracles. Numbers are modelled as
integers; the `>>> 0` coercion becomes reduction modulo 2^32.
-/

/-- A JSON-like value: the shapes `responseData` and request bodies take. -/
inductive JValue where
  | null : JValue
  | b : Bool → JValue
  | n : Int → JValue
  | s : String → JValue
  | arr : List JValue → JValue
  | obj : List (String × JValue) → JValue

/-- A value stored in the `qs` query object: a string, a number, or JS
`undefined` (assigning `undefined` to a property still creates the key). -/
inductive QVal where
  | s : String → QVal
  | n : Int → QVal
  | undef : QVal
deriving DecidableEq

/-- The shared `qs` object: ordered key/value pairs, JS property-order
semantics (updating an existing key keeps its position, a new key is
appended). -/
abbrev Qs := List (String × QVal)

/-- JS property assignment `qs[k] = v`. -/
def setQ (qs : Qs) (k : String) (v : QVal) : Qs :=
  if qs.any (fun p => p.1 = k) then
    qs.map (fun p => if p.1 = k then (k, v) else p)
  else
    qs ++ [(k, v)]

/-- JS property read `qs[k]` (`none` when the key is absent). -/
def getQ (qs : Qs) (k : String) : Option QVal :=
  (qs.find? (fun p => p.1 = k)).map Prod.snd

/-- HTTP methods used by the node. -/
inductive HttpMethod where
  | GET : HttpMethod
  | POST : HttpMethod
  | DELETE : HttpMethod
deriving DecidableEq

/-- One concrete request handed to the transport: method, path, optional
JSON body (as its list of fields), and the query object at call time. -/
structure RequestSpec where
  method : HttpMethod
  path : String
  body : Option (List (String × JValue))
  query : Qs

/-- One transport invocation: a plain `googleApiRequest` call, or a
`googleApiRequestAllItems` fetch-all call with its list key. -/
inductive TransportCall where
  | single : RequestSpec → TransportCall
  | allItems : String → RequestSpec → TransportCall

/-- The `additionalFields` parameter group of the getAll operations. -/
structure AdditionalFields where
  pageSize : Option Int := none
  pageToken : Option String := none

/-- The `messageUi` structured parameter (`cards` assembly is commented
out in the source, so only `text` is ever read). -/
structure IMessageUi where
  text : Option String := none

/-- The node parameters as resolved for one item index by
`getNodeParameter`; `resource`, `operation` and `returnAll` are only ever
read at index 0. -/
structure ItemParams where
  resource : String := ""
  operation : String := ""
  returnAll : Bool := false
  resourceName : String := ""
  spaceName : String := ""
  memberName : String := ""
  messageName : String := ""
  attachmentName : String := ""
  threadKey : String := ""
  jsonParameterMessage : Bool := false
  messageJson : String := ""
  messageUi : IMessageUi := {}
  jsonParameterUpdateOptions : Bool := false
  updateOptionsJson : String := ""
  updateMask : List String := []
  textUi : String := ""
  additionalFields : AdditionalFields := {}

/-- External collaborators from `GenericFunctions.ts` (not among the
sources): the authenticated transport call, the fetch-all pagination
helper, and the JSON validator. `validateJSON` returns the parsed value
on success and `none` on a parse failure, so a `some` result is also what
`JSON.parse` yields on the same string. Transport failures carry the
error message. -/
structure Env where
  request : RequestSpec → Except String (Option JValue)
  requestAllItems : String → RequestSpec → Except String (List JValue)
  validateJSON : String → Option JValue

/-- The `>>> 0` idiom: ToUint32. `undefined` becomes `NaN` and then `0`;
an integer is wrapped into the unsigned 32-bit range. -/
def toUint32 : Option Int → Int
  | none => 0
  | some n => n % 4294967296

/-- Assigning a possibly-`undefined` string (`qs.pageToken =
additionalFields.pageToken`). -/
def qvalOfOptStr : Option String → QVal
  | some t => QVal.s t
  | none => QVal.undef

/-- `Object.assign(body, parsed)`: the own enumerable fields of a parsed
JSON value (none for a non-object). -/
def jfields : JValue → List (String × JValue)
  | JValue.obj fs => fs
  | _ => []

/-- JS `s.slice(0, -1)`: drop the final character. -/
def sliceDropLast (s : String) : String :=
  ⟨s.data.dropLast⟩

/-- The comma-join of the update mask exactly as the source builds it:
`updateMask += option + ','` over the list, then `slice(0, -1)`. -/
def joinMask (opts : List String) : String :=
  sliceDropLast (opts.foldl (fun acc o => acc ++ o ++ ",") "")

/-- What one loop iteration leaves behind: the transport calls it issued,
the `qs` object as it stands afterwards (also after a throw), and either
the value `responseData` holds next (a thrown error keeps the previous
one, modelled by the caller) or the thrown error's message. -/
structure ItemOutcome where
  calls : List TransportCall
  qs : Qs
  result : Except String (Option JValue)

/-- The body of one `for` iteration of `execute` (the `try` block up to
the aggregation): dispatch on `(resource, operation)`, build and issue the
request. `prevResp` is the value `responseData` held before this
iteration; a pair outside the dispatch table leaves it untouched. -/
def executeItem (env : Env) (resource operation : String)
    (params : Nat → ItemParams) (i : Nat) (qs : Qs) (prevResp : Option JValue) :
    ItemOutcome :=
  let p := params i
  if resource = "media" then
    if operation = "download" then
      let req : RequestSpec :=
        ⟨HttpMethod.GET, "/v1/media/" ++ p.resourceName ++ "?alt=media", none, []⟩
      ⟨[TransportCall.single req], qs, env.request req⟩
    else ⟨[], qs, Except.ok prevResp⟩
  else if resource = "space" then
    if operation = "get" then
      let req : RequestSpec := ⟨HttpMethod.GET, "/v1/" ++ p.spaceName, none, []⟩
      ⟨[TransportCall.single req], qs, env.request req⟩
    else if operation = "getAll" then
      if (params 0).returnAll then
        let req : RequestSpec := ⟨HttpMethod.GET, "/v1/spaces", none, qs⟩
        ⟨[TransportCall.allItems "spaces" req], qs,
          (env.requestAllItems "spaces" req).map (fun xs => some (JValue.arr xs))⟩
      else
        let qs1 := setQ qs "pageSize" (QVal.n (toUint32 p.additionalFields.pageSize))
        let qs2 := setQ qs1 "pageToken" (qvalOfOptStr p.additionalFields.pageToken)
        let req : RequestSpec := ⟨HttpMethod.GET, "/v1/spaces", none, qs2⟩
        ⟨[TransportCall.single req], qs2, env.request req⟩
    else ⟨[], qs, Except.ok prevResp⟩
  else if resource = "member" then
    if operation = "get" then
      let req : RequestSpec :=
        ⟨HttpMethod.GET, "/v1/spaces/" ++ p.spaceName ++ "/members/" ++ p.memberName,
          none, []⟩
      ⟨[TransportCall.single req], qs, env.request req⟩
    else if operation = "getAll" then
      if (params 0).returnAll then
        let req : RequestSpec :=
          ⟨HttpMethod.GET, "/v1/spaces/" ++ p.spaceName ++ "/members", none, qs⟩
        ⟨[TransportCall.allItems "memberships" req], qs,
          (env.requestAllItems "memberships" req).map (fun xs => some (JValue.arr xs))⟩
      else
        let qs1 := setQ qs "pageSize" (QVal.n (toUint32 p.additionalFields.pageSize))
        let qs2 := setQ qs1 "pageToken" (qvalOfOptStr p.additionalFields.pageToken)
        let req : RequestSpec :=
          ⟨HttpMethod.GET, "/v1/spaces/" ++ p.spaceName ++ "/members", none, qs2⟩
        ⟨[TransportCall.single req], qs2, env.request req⟩
    else ⟨[], qs, Except.ok prevResp⟩
  else if resource = "message" then
    if operation = "create" then
      let qs1 := setQ qs "threadKey" (QVal.s p.threadKey)
      if p.jsonParameterMessage then
        match env.validateJSON p.messageJson with
        | some v =>
          let req : RequestSpec :=
            ⟨HttpMethod.POST, "/v1/spaces/" ++ p.spaceName, some (jfields v), qs1⟩
          ⟨[TransportCall.single req], qs1, env.request req⟩
        | none => ⟨[], qs1, Except.error "Message (JSON) must be a valid json"⟩
      else
        match p.messageUi.text with
        | some t =>
          if t = "" then ⟨[], qs1, Except.error "Message Text must be provided."⟩
          else
            let req : RequestSpec :=
              ⟨HttpMethod.POST, "/v1/spaces/" ++ p.spaceName,
                some [("text", JValue.s t)], qs1⟩
            ⟨[TransportCall.single req], qs1, env.request req⟩
        | none => ⟨[], qs1, Except.error "Message Text must be provided."⟩
    else if operation = "delete" then
      let req : RequestSpec :=
        ⟨HttpMethod.DELETE,
          "/v1/spaces/" ++ p.spaceName ++ "/messages/" ++ p.messageName, none, []⟩
      ⟨[TransportCall.single req], qs, env.request req⟩
    else if operation = "get" then
      let req : RequestSpec :=
        ⟨HttpMethod.GET,
          "/v1/spaces/" ++ p.spaceName ++ "/messages/" ++ p.messageName, none, []⟩
      ⟨[TransportCall.single req], qs, env.request req⟩
    else if operation = "update" then
      if p.updateMask.length ≠ 0 then
        let qs1 := setQ qs "updateMask" (QVal.s (joinMask p.updateMask))
        if p.jsonParameterUpdateOptions then
          match env.validateJSON p.updateOptionsJson with
          | some v =>
            let req : RequestSpec :=
              ⟨HttpMethod.POST,
                "/v1/spaces/" ++ p.spaceName ++ "/messages/" ++ p.messageName,
                some (jfields v), qs1⟩
            ⟨[TransportCall.single req], qs1, env.request req⟩
          | none => ⟨[], qs1, Except.error "Update Options (JSON) must be a valid json"⟩
        else
          if p.updateMask.contains "text" then
            if p.textUi = "" then
              ⟨[], qs1, Except.error "Text input must be provided."⟩
            else
              let req : RequestSpec :=
                ⟨HttpMethod.POST,
                  "/v1/spaces/" ++ p.spaceName ++ "/messages/" ++ p.messageName,
                  some [("text", JValue.s p.textUi)], qs1⟩
              ⟨[TransportCall.single req], qs1, env.request req⟩
          else
            let req : RequestSpec :=
              ⟨HttpMethod.POST,
                "/v1/spaces/" ++ p.spaceName ++ "/messages/" ++ p.messageName,
                some [], qs1⟩
            ⟨[TransportCall.single req], qs1, env.request req⟩
      else ⟨[], qs, Except.error "Update Mask must not be empty."⟩
    else ⟨[], qs, Except.ok prevResp⟩
  else if resource = "attachment" then
    if operation = "get" then
      let req : RequestSpec :=
        ⟨HttpMethod.POST,
          "/v1/spaces/" ++ p.spaceName ++ "/messages/" ++ p.messageName
            ++ "/attachments/" ++ p.attachmentName, none, []⟩
      ⟨[TransportCall.single req], qs, env.request req⟩
    else ⟨[], qs, Except.ok prevResp⟩
  else ⟨[], qs, Except.ok prevResp⟩

/-- Lines 400–404 of the source: splice an array response element by
element, append a defined non-array response as one element, append
nothing for `undefined`. -/
def appendResult (returnData : List JValue) : Option JValue → List JValue
  | none => returnData
  | some (JValue.arr xs) => returnData ++ xs
  | some v => returnData ++ [v]

/-- The `for` loop of `execute`, by remaining iteration count: threads the
shared `qs`, the persistent `responseData`, the accumulated `returnData`
and the transport-call trace; a caught failure is recorded as
`{error: message}` when `continueOnFail` holds and otherwise rethrown,
which discards `returnData`. -/
def executeLoop (env : Env) (resource operation : String)
    (params : Nat → ItemParams) (continueOnFail : Bool) :
    Nat → Nat → Qs → Option JValue → List JValue → List TransportCall →
    List TransportCall × Except String (List JValue)
  | _, 0, _, _, returnData, calls => (calls, Except.ok returnData)
  | i, remaining + 1, qs, prevResp, returnData, calls =>
    let out := executeItem env resource operation params i qs prevResp
    match out.result with
    | Except.ok resp =>
      executeLoop env resource operation params continueOnFail (i + 1) remaining
        out.qs resp (appendResult returnData resp) (calls ++ out.calls)
    | Except.error msg =>
      if continueOnFail then
        executeLoop env resource operation params continueOnFail (i + 1) remaining
          out.qs prevResp
          (returnData ++ [JValue.obj [("error", JValue.s msg)]]) (calls ++ out.calls)
      else
        (calls ++ out.calls, Except.error msg)

/-- The whole `execute` run over `nItems` input items: `resource` and
`operation` resolved once at index 0, `qs` starting empty, `responseData`
starting `undefined`. Returns the transport-call trace and either the
output collection or the error that terminated the run. -/
def execute (env : Env) (params : Nat → ItemParams) (continueOnFail : Bool)
    (nItems : Nat) : List TransportCall × Except String (List JValue) :=
  executeLoop env (params 0).resource (params 0).operation params continueOnFail
    0 nItems [] none [] []

/-! ## Helper lemmas on the query object and the mask join -/

theorem getQ_setQ_self (qs : Qs) (k : String) (v : QVal) :
    getQ (setQ qs k v) k = some v := by
  unfold setQ
  split
  · rename_i h
    induction qs with
    | nil => simp at h
    | cons p rest ih =>
      by_cases hp : p.1 = k
      · simp [getQ, List.find?, hp]
      · simp only [List.any_cons, hp, decide_eq_true_eq, false_or] at h
        simpa [getQ, List.find?, hp] using ih h
  · induction qs with
    | nil => simp [getQ, List.find?]
    | cons p rest ih =>
      rename_i h
      simp only [List.any_cons, Bool.or_eq_true, decide_eq_true_eq, not_or] at h
      simpa [getQ, List.find?, h.1] using ih (by simpa using h.2)

theorem getQ_cons (p : String × QVal) (rest : Qs) (k : String) :
    getQ (p :: rest) k = if p.1 = k then some p.2 else getQ rest k := by
  by_cases hp : p.1 = k
  · simp [getQ, List.find?_cons_of_pos, hp]
  · simp [getQ, List.find?_cons_of_neg, hp]

theorem getQ_map_ne (qs : Qs) (k k' : String) (v : QVal) (h : k' ≠ k) :
    getQ (qs.map (fun p => if p.1 = k' then (k', v) else p)) k = getQ qs k := by
  induction qs with
  | nil => rfl
  | cons p rest ih =>
    rw [List.map_cons, getQ_cons, getQ_cons]
    by_cases hp : p.1 = k'
    · rw [if_pos hp]
      have h2 : ¬p.1 = k := fun hc => h (hp.symm.trans hc)
      rw [if_neg h, if_neg h2]
      exact ih
    · rw [if_neg hp]
      by_cases hk : p.1 = k
      · rw [if_pos hk, if_pos hk]
      · rw [if_neg hk, if_neg hk]
        exact ih

theorem getQ_append_single_ne (qs : Qs) (k k' : String) (v : QVal) (h : k' ≠ k) :
    getQ (qs ++ [(k', v)]) k = getQ qs k := by
  induction qs with
  | nil =>
    rw [List.nil_append, getQ_cons, if_neg h]
  | cons p rest ih =>
    rw [List.cons_append, getQ_cons, getQ_cons]
    by_cases hk : p.1 = k
    · rw [if_pos hk, if_pos hk]
    · rw [if_neg hk, if_neg hk]
      exact ih

theorem getQ_setQ_ne (qs : Qs) (k k' : String) (v : QVal) (h : k' ≠ k) :
    getQ (setQ qs k' v) k = getQ qs k := by
  unfold setQ
  split
  · exact getQ_map_ne qs k k' v h
  · exact getQ_append_single_ne qs k k' v h

theorem foldl_mask_go (as : List String) : ∀ acc : String,
    as.foldl (fun b o => b ++ o ++ ",") (acc ++ ",")
      = String.intercalate.go acc "," as ++ "," := by
  induction as with
  | nil => intro acc; rfl
  | cons a rest ih =>
    intro acc
    show rest.foldl (fun b o => b ++ o ++ ",") (acc ++ "," ++ a ++ ",")
      = String.intercalate.go (acc ++ "," ++ a) "," rest ++ ","
    exact ih (acc ++ "," ++ a)

theorem sliceDropLast_append_comma (s : String) : sliceDropLast (s ++ ",") = s := by
  cases s with
  | mk l =>
    show String.mk (List.dropLast (l ++ [','])) = String.mk l
    rw [List.dropLast_concat]

theorem joinMask_eq_intercalate (opts : List String) (h : opts ≠ []) :
    joinMask opts = String.intercalate "," opts := by
  match opts, h with
  | a :: as, _ =>
    show sliceDropLast ((a :: as).foldl (fun b o => b ++ o ++ ",") "")
      = String.intercalate.go a "," as
    have e1 : (a :: as).foldl (fun b o => b ++ o ++ ",") ""
        = as.foldl (fun b o => b ++ o ++ ",") (a ++ ",") := by
      rw [List.foldl_cons, String.empty_append]
    rw [e1, foldl_mask_go, sliceDropLast_append_comma]

/-! ## Concrete environments for instantiating the per-item theorems -/

/-- A concrete environment whose transport always succeeds with no data
and whose JSON validator rejects every string. -/
def envNoData : Env where
  request := fun _ => Except.ok none
  requestAllItems := fun _ _ => Except.ok []
  validateJSON := fun _ => none

/-! ## The claims -/

/-- C3: lines 400-404 of `execute`: an array-valued response of length n
contributes exactly its n elements in original order, a defined non-array
response contributes exactly itself as one element, and an undefined
response contributes nothing. -/
theorem appendResult_shapes (returnData xs : List JValue) (v : JValue)
    (hv : ∀ ys, v ≠ JValue.arr ys) :
    appendResult returnData (some (JValue.arr xs)) = returnData ++ xs
      ∧ appendResult returnData (some v) = returnData ++ [v]
      ∧ appendResult returnData none = returnData := by
  refine ⟨rfl, ?_, rfl⟩
  cases v with
  | arr ys => exact absurd rfl (hv ys)
  | null => rfl
  | b => rfl
  | n => rfl
  | s => rfl
  | obj => rfl

theorem appendResult_shapes_witness :
    appendResult [JValue.null] (some (JValue.arr [JValue.b true, JValue.b false]))
        = [JValue.null, JValue.b true, JValue.b false]
      ∧ appendResult [JValue.null] (some (JValue.obj [])) = [JValue.null, JValue.obj []]
      ∧ appendResult [JValue.null] none = [JValue.null] :=
  appendResult_shapes [JValue.null] [JValue.b true, JValue.b false] (JValue.obj [])
    (fun _ h => JValue.noConfusion h)

/-- C4: for every item, `message:create` in structured mode (raw-JSON flag
off) with text empty or absent throws `Message Text must be provided.` and
issues zero transport calls for that item. -/
theorem create_structured_empty_text_fails (env : Env) (params : Nat → ItemParams)
    (i : Nat) (qs : Qs) (prevResp : Option JValue)
    (hjson : (params i).jsonParameterMessage = false)
    (htext : (params i).messageUi.text = none ∨ (params i).messageUi.text = some "") :
    (executeItem env "message" "create" params i qs prevResp).result
        = Except.error "Message Text must be provided."
      ∧ (executeItem env "message" "create" params i qs prevResp).calls = [] := by
  rcases htext with h | h <;> simp [executeItem, hjson, h]

theorem create_structured_empty_text_fails_witness :
    (executeItem envNoData "message" "create"
        (fun _ => { messageUi := { text := some "" } }) 0 [] none).result
        = Except.error "Message Text must be provided."
      ∧ (executeItem envNoData "message" "create"
        (fun _ => { messageUi := { text := some "" } }) 0 [] none).calls = [] :=
  create_structured_empty_text_fails envNoData
    (fun _ => { messageUi := { text := some "" } }) 0 [] none rfl (Or.inr rfl)

/-- C5: for every item, `message:update` with an empty update-mask list
throws `Update Mask must not be empty.` and issues zero transport calls,
for every value of the raw-JSON flag and of the payload parameters (so
before any payload resolution), leaving `qs` untouched. -/
theorem update_empty_mask_fails (env : Env) (params : Nat → ItemParams)
    (i : Nat) (qs : Qs) (prevResp : Option JValue)
    (hmask : (params i).updateMask = []) :
    (executeItem env "message" "update" params i qs prevResp).result
        = Except.error "Update Mask must not be empty."
      ∧ (executeItem env "message" "update" params i qs prevResp).calls = []
      ∧ (executeItem env "message" "update" params i qs prevResp).qs = qs := by
  simp [executeItem, hmask]

theorem update_empty_mask_fails_witness :
    (executeItem envNoData "message" "update" (fun _ => {}) 0 [] none).result
        = Except.error "Update Mask must not be empty."
      ∧ (executeItem envNoData "message" "update" (fun _ => {}) 0 [] none).calls = []
      ∧ (executeItem envNoData "message" "update" (fun _ => {}) 0 [] none).qs = [] :=
  update_empty_mask_fails envNoData (fun _ => {}) 0 [] none rfl

/-- C10: for every item, `message:create` in structured mode with a
non-empty text issues exactly one POST whose body is exactly the single
field `text` with the supplied value (cards are never included). -/
theorem create_structured_body_text_only (env : Env) (params : Nat → ItemParams)
    (i : Nat) (qs : Qs) (prevResp : Option JValue) (t : String)
    (hjson : (params i).jsonParameterMessage = false)
    (htext : (params i).messageUi.text = some t) (hne : t ≠ "") :
    (executeItem env "message" "create" params i qs prevResp).calls
      = [TransportCall.single
          ⟨HttpMethod.POST, "/v1/spaces/" ++ (params i).spaceName,
            some [("text", JValue.s t)],
            setQ qs "threadKey" (QVal.s (params i).threadKey)⟩] := by
  simp [executeItem, hjson, htext, hne]

theorem create_structured_body_text_only_witness :
    (executeItem envNoData "message" "create"
        (fun _ => { spaceName := "spaces/X", messageUi := { text := some "hi" } })
        0 [] none).calls
      = [TransportCall.single
          ⟨HttpMethod.POST, "/v1/spaces/" ++ "spaces/X", some [("text", JValue.s "hi")],
            setQ [] "threadKey" (QVal.s "")⟩] :=
  create_structured_body_text_only envNoData
    (fun _ => { spaceName := "spaces/X", messageUi := { text := some "hi" } })
    0 [] none "hi" rfl rfl (by decide)

/-- C6: in single-page mode (`returnAll = false`) for `space:getAll` and
`member:getAll`, a supplied pageSize is sent coerced to its unsigned
32-bit representation, so `-1` goes out as `4294967295`. -/
theorem getAll_pageSize_uint32 (env : Env) (params : Nat → ItemParams)
    (i : Nat) (qs : Qs) (prevResp : Option JValue) (n : Int) (r : String)
    (hr : r = "space" ∨ r = "member")
    (hra : (params 0).returnAll = false)
    (hps : (params i).additionalFields.pageSize = some n) :
    ∃ req : RequestSpec,
      (executeItem env r "getAll" params i qs prevResp).calls
          = [TransportCall.single req]
        ∧ getQ req.query "pageSize" = some (QVal.n (n % 4294967296)) := by
  rcases hr with h | h <;> subst h
  · refine ⟨⟨HttpMethod.GET, "/v1/spaces", none,
      setQ (setQ qs "pageSize" (QVal.n (toUint32 (params i).additionalFields.pageSize)))
        "pageToken" (qvalOfOptStr (params i).additionalFields.pageToken)⟩, ?_, ?_⟩
    · simp [executeItem, hra]
    · rw [hps, getQ_setQ_ne _ _ _ _ (by decide), getQ_setQ_self]
      rfl
  · refine ⟨⟨HttpMethod.GET, "/v1/spaces/" ++ (params i).spaceName ++ "/members", none,
      setQ (setQ qs "pageSize" (QVal.n (toUint32 (params i).additionalFields.pageSize)))
        "pageToken" (qvalOfOptStr (params i).additionalFields.pageToken)⟩, ?_, ?_⟩
    · simp [executeItem, hra]
    · rw [hps, getQ_setQ_ne _ _ _ _ (by decide), getQ_setQ_self]
      rfl

theorem getAll_pageSize_uint32_witness :
    ∃ req : RequestSpec,
      (executeItem envNoData "space" "getAll"
          (fun _ => { additionalFields := { pageSize := some (-1) } }) 0 [] none).calls
          = [TransportCall.single req]
        ∧ getQ req.query "pageSize" = some (QVal.n 4294967295) :=
  getAll_pageSize_uint32 envNoData
    (fun _ => { additionalFields := { pageSize := some (-1) } }) 0 [] none (-1) "space"
    (Or.inl rfl) rfl rfl

/-- C9: in single-page mode the pageSize query parameter is always
present: with no supplied pageSize the coercion turns `undefined` into 0
and the request carries `pageSize = 0` instead of omitting the key. -/
theorem getAll_pageSize_absent_sent_zero (env : Env) (params : Nat → ItemParams)
    (i : Nat) (qs : Qs) (prevResp : Option JValue) (r : String)
    (hr : r = "space" ∨ r = "member")
    (hra : (params 0).returnAll = false)
    (hps : (params i).additionalFields.pageSize = none) :
    ∃ req : RequestSpec,
      (executeItem env r "getAll" params i qs prevResp).calls
          = [TransportCall.single req]
        ∧ getQ req.query "pageSize" = some (QVal.n 0) := by
  rcases hr with h | h <;> subst h
  · refine ⟨⟨HttpMethod.GET, "/v1/spaces", none,
      setQ (setQ qs "pageSize" (QVal.n (toUint32 (params i).additionalFields.pageSize)))
        "pageToken" (qvalOfOptStr (params i).additionalFields.pageToken)⟩, ?_, ?_⟩
    · simp [executeItem, hra]
    · rw [hps, getQ_setQ_ne _ _ _ _ (by decide), getQ_setQ_self]
      rfl
  · refine ⟨⟨HttpMethod.GET, "/v1/spaces/" ++ (params i).spaceName ++ "/members", none,
      setQ (setQ qs "pageSize" (QVal.n (toUint32 (params i).additionalFields.pageSize)))
        "pageToken" (qvalOfOptStr (params i).additionalFields.pageToken)⟩, ?_, ?_⟩
    · simp [executeItem, hra]
    · rw [hps, getQ_setQ_ne _ _ _ _ (by decide), getQ_setQ_self]
      rfl

theorem getAll_pageSize_absent_sent_zero_witness :
    ∃ req : RequestSpec,
      (executeItem envNoData "member" "getAll"
          (fun _ => { spaceName := "spaces/Y" }) 0 [] none).calls
          = [TransportCall.single req]
        ∧ getQ req.query "pageSize" = some (QVal.n 0) :=
  getAll_pageSize_absent_sent_zero envNoData
    (fun _ => { spaceName := "spaces/Y" }) 0 [] none "member" (Or.inr rfl) rfl rfl

/-- C7: `message:update` with a non-empty update-mask list sends the mask
comma-joined in list order with no trailing separator as the `updateMask`
query parameter (the structured payload mode with a non-empty text puts
the item on a path that issues the request). -/
theorem update_mask_comma_joined (env : Env) (params : Nat → ItemParams)
    (i : Nat) (qs : Qs) (prevResp : Option JValue)
    (hmask : (params i).updateMask ≠ [])
    (hjson : (params i).jsonParameterUpdateOptions = false)
    (htext : (params i).textUi ≠ "") :
    ∃ req : RequestSpec,
      (executeItem env "message" "update" params i qs prevResp).calls
          = [TransportCall.single req]
        ∧ getQ req.query "updateMask"
            = some (QVal.s (String.intercalate "," (params i).updateMask)) := by
  have hlen : (params i).updateMask.length ≠ 0 :=
    fun hl => hmask (List.length_eq_zero.mp hl)
  by_cases hc : "text" ∈ (params i).updateMask
  · refine ⟨⟨HttpMethod.POST,
      "/v1/spaces/" ++ (params i).spaceName ++ "/messages/" ++ (params i).messageName,
      some [("text", JValue.s (params i).textUi)],
      setQ qs "updateMask" (QVal.s (joinMask (params i).updateMask))⟩, ?_, ?_⟩
    · simp [executeItem, hlen, hjson, hc, htext]
    · rw [getQ_setQ_self, joinMask_eq_intercalate _ hmask]
  · refine ⟨⟨HttpMethod.POST,
      "/v1/spaces/" ++ (params i).spaceName ++ "/messages/" ++ (params i).messageName,
      some [],
      setQ qs "updateMask" (QVal.s (joinMask (params i).updateMask))⟩, ?_, ?_⟩
    · simp [executeItem, hlen, hjson, hc]
    · rw [getQ_setQ_self, joinMask_eq_intercalate _ hmask]

theorem update_mask_comma_joined_witness :
    ∃ req : RequestSpec,
      (executeItem envNoData "message" "update"
          (fun _ => { updateMask := ["text", "cards"], textUi := "yo" }) 0 [] none).calls
          = [TransportCall.single req]
        ∧ getQ req.query "updateMask"
            = some (QVal.s (String.intercalate "," ["text", "cards"])) :=
  update_mask_comma_joined envNoData
    (fun _ => { updateMask := ["text", "cards"], textUi := "yo" }) 0 [] none
    (List.cons_ne_nil _ _) rfl (by decide)

/-- The `(resource, operation)` pairs the nested conditionals of `execute`
handle; every other pair falls through with no request and no assignment
to `responseData`. -/
def dispatched (resource operation : String) : Bool :=
  (resource == "media" && operation == "download")
    || (resource == "space" && (operation == "get" || operation == "getAll"))
    || (resource == "member" && (operation == "get" || operation == "getAll"))
    || (resource == "message" && (operation == "create" || operation == "delete"
          || operation == "get" || operation == "update"))
    || (resource == "attachment" && operation == "get")

theorem executeItem_miss (env : Env) (resource operation : String)
    (params : Nat → ItemParams) (i : Nat) (qs : Qs) (prevResp : Option JValue)
    (h : dispatched resource operation = false) :
    executeItem env resource operation params i qs prevResp
      = ⟨[], qs, Except.ok prevResp⟩ := by
  unfold executeItem
  by_cases r1 : resource = "media"
  · subst r1
    by_cases o1 : operation = "download"
    · subst o1; exact absurd h (by decide)
    · simp [o1]
  · by_cases r2 : resource = "space"
    · subst r2
      by_cases o1 : operation = "get"
      · subst o1; exact absurd h (by decide)
      · by_cases o2 : operation = "getAll"
        · subst o2; exact absurd h (by decide)
        · simp [o1, o2]
    · by_cases r3 : resource = "member"
      · subst r3
        by_cases o1 : operation = "get"
        · subst o1; exact absurd h (by decide)
        · by_cases o2 : operation = "getAll"
          · subst o2; exact absurd h (by decide)
          · simp [o1, o2]
      · by_cases r4 : resource = "message"
        · subst r4
          by_cases o1 : operation = "create"
          · subst o1; exact absurd h (by decide)
          · by_cases o2 : operation = "delete"
            · subst o2; exact absurd h (by decide)
            · by_cases o3 : operation = "get"
              · subst o3; exact absurd h (by decide)
              · by_cases o4 : operation = "update"
                · subst o4; exact absurd h (by decide)
                · simp [o1, o2, o3, o4]
        · by_cases r5 : resource = "attachment"
          · subst r5
            by_cases o1 : operation = "get"
            · subst o1; exact absurd h (by decide)
            · simp [o1]
          · simp [r1, r2, r3, r4, r5]

theorem executeLoop_miss (env : Env) (r o : String) (params : Nat → ItemParams)
    (cof : Bool) (h : dispatched r o = false) :
    ∀ fuel i qs returnData calls,
      executeLoop env r o params cof i fuel qs none returnData calls
        = (calls, Except.ok returnData) := by
  intro fuel
  induction fuel with
  | zero => intro i qs rd calls; rfl
  | succ n ih =>
    intro i qs rd calls
    have e := executeItem_miss env r o params i qs none h
    simp only [executeLoop, e, appendResult, List.append_nil]
    exact ih (i + 1) qs rd calls

/-- C8: a run whose selected `(resource, operation)` pair is outside the
dispatch table issues no transport call and returns an empty output
collection, every item being a no-op. -/
theorem run_table_miss (env : Env) (params : Nat → ItemParams)
    (continueOnFail : Bool) (nItems : Nat)
    (h : dispatched (params 0).resource (params 0).operation = false) :
    execute env params continueOnFail nItems = ([], Except.ok []) := by
  unfold execute
  exact executeLoop_miss env _ _ params continueOnFail h nItems 0 [] [] []

theorem run_table_miss_witness :
    execute envNoData (fun _ => { resource := "space", operation := "delete" }) true 3
      = ([], Except.ok []) :=
  run_table_miss envNoData (fun _ => { resource := "space", operation := "delete" })
    true 3 rfl

/-- A concrete environment whose transport fails with message `boom` on
the path of space B and succeeds on every other path, echoing the path. -/
def envFailB : Env where
  request := fun r =>
    if r.path = "/v1/spaces/B" then Except.error "boom"
    else Except.ok (some (JValue.obj [("path", JValue.s r.path)]))
  requestAllItems := fun _ _ => Except.ok []
  validateJSON := fun _ => none

/-- Concrete run parameters: `space:get` over the three spaces A, B, C. -/
def paramsABC : Nat → ItemParams := fun i =>
  { resource := "space", operation := "get",
    spaceName := if i = 1 then "spaces/B" else if i = 2 then "spaces/C" else "spaces/A" }

/-- C1: continue-on-fail run over 3 items whose middle transport call
fails: the output has exactly 3 entries in original order, entries 1 and 3
being the successful results and entry 2 the record `{error: message}`. -/
theorem run_continue_on_fail_three (env : Env) (params : Nat → ItemParams)
    (msg : String) (o1 o3 : List (String × JValue))
    (hres : (params 0).resource = "space")
    (hop : (params 0).operation = "get")
    (h0 : env.request ⟨HttpMethod.GET, "/v1/" ++ (params 0).spaceName, none, []⟩
        = Except.ok (some (JValue.obj o1)))
    (h1 : env.request ⟨HttpMethod.GET, "/v1/" ++ (params 1).spaceName, none, []⟩
        = Except.error msg)
    (h2 : env.request ⟨HttpMethod.GET, "/v1/" ++ (params 2).spaceName, none, []⟩
        = Except.ok (some (JValue.obj o3))) :
    (execute env params true 3).2
      = Except.ok [JValue.obj o1, JValue.obj [("error", JValue.s msg)], JValue.obj o3] := by
  unfold execute
  rw [hres, hop]
  simp [executeLoop, executeItem, appendResult, h0, h1, h2]

theorem run_continue_on_fail_three_witness :
    (execute envFailB paramsABC true 3).2
      = Except.ok [JValue.obj [("path", JValue.s "/v1/spaces/A")],
          JValue.obj [("error", JValue.s "boom")],
          JValue.obj [("path", JValue.s "/v1/spaces/C")]] :=
  run_continue_on_fail_three envFailB paramsABC "boom"
    [("path", JValue.s "/v1/spaces/A")] [("path", JValue.s "/v1/spaces/C")]
    rfl rfl rfl rfl rfl

/-- C2: the same failing 3-item run without continue-on-fail: the run
stops at item 2 rethrowing the same error, issues no transport call for
item 3, and returns no output collection. -/
theorem run_abort_on_fail_three (env : Env) (params : Nat → ItemParams)
    (msg : String) (o1 : List (String × JValue))
    (hres : (params 0).resource = "space")
    (hop : (params 0).operation = "get")
    (h0 : env.request ⟨HttpMethod.GET, "/v1/" ++ (params 0).spaceName, none, []⟩
        = Except.ok (some (JValue.obj o1)))
    (h1 : env.request ⟨HttpMethod.GET, "/v1/" ++ (params 1).spaceName, none, []⟩
        = Except.error msg) :
    execute env params false 3
      = ([TransportCall.single ⟨HttpMethod.GET, "/v1/" ++ (params 0).spaceName, none, []⟩,
          TransportCall.single ⟨HttpMethod.GET, "/v1/" ++ (params 1).spaceName, none, []⟩],
         Except.error msg) := by
  unfold execute
  rw [hres, hop]
  simp [executeLoop, executeItem, appendResult, h0, h1]

theorem run_abort_on_fail_three_witness :
    execute envFailB paramsABC false 3
      = ([TransportCall.single ⟨HttpMethod.GET, "/v1/" ++ "spaces/A", none, []⟩,
          TransportCall.single ⟨HttpMethod.GET, "/v1/" ++ "spaces/B", none, []⟩],
         Except.error "boom") :=
  run_abort_on_fail_three envFailB paramsABC "boom"
    [("path", JValue.s "/v1/spaces/A")] rfl rfl rfl rfl
